import Mathlib

/-!
Shallow embedding of `src/model/register_model.py` (Sentiment-Analysis-IMDB).

The module is glue around an external tracking client (MLflow): it loads JSON
metadata, registers a model, transitions its stage, verifies artifacts, and
writes JSON metadata back. We embed it over an explicit environment `Env`
holding the behaviour of the external client and of the filesystem; each
Python function becomes a Lean function from `Env` (and its arguments) to an
output record carrying the Python result (`Except PyError α`, `.error` =
the exception propagating out of the function), the log entries emitted via
`logging`, the trace of calls made to the external client, and — where the
function writes — the updated filesystem. Python `print` calls are not
modelled (no claim mentions stdout). `time.sleep(2)` has no observable
effect in this model.
-/

set_option autoImplicit false

namespace RegisterModel

/-- JSON values as produced by Python's `json.load` (object keys are
strings; a later duplicate key overwrites an earlier one, handled in
`jLookup`). -/
inductive JVal where
  | str (s : String)
  | num (n : Int)
  | jbool (b : Bool)
  | jnull
  | arr (elems : List JVal)
  | obj (fields : List (String × JVal))

/-- The Python exceptions this module can raise or catch. In Python,
`json.JSONDecodeError` is a subclass of `ValueError`; `jsonDecode` is kept
separate so that `except json.JSONDecodeError` and
`except (FileNotFoundError, ValueError)` can both be modelled exactly. -/
inductive PyError where
  | fileNotFound (path : String)
  | jsonDecode (msg : String)
  | keyError (key : String)
  | typeError (msg : String)
  | valueError (msg : String)
  | other (msg : String)
  deriving DecidableEq, Repr

/-- Python `str(e)` on the exceptions above (used in log messages). -/
def pyErrStr : PyError → String
  | .fileNotFound p => "[Errno 2] No such file or directory: '" ++ p ++ "'"
  | .jsonDecode m => m
  | .keyError k => "'" ++ k ++ "'"
  | .typeError m => m
  | .valueError m => m
  | .other m => m

/-- `isinstance(e, (FileNotFoundError, ValueError))`: the exception classes
caught by `except (FileNotFoundError, ValueError)` in `main`.
`json.JSONDecodeError` is a `ValueError` subclass, so it is caught too. -/
def PyError.caughtByFileNotFoundOrValue : PyError → Bool
  | .fileNotFound _ => true
  | .jsonDecode _ => true
  | .valueError _ => true
  | _ => false

/-- Logging levels used by the module (`logging.info` / `warning` / `error`). -/
inductive Level where
  | info
  | warning
  | error
  deriving DecidableEq, Repr

/-- One emitted log record. -/
structure LogEntry where
  level : Level
  msg : String
  deriving DecidableEq, Repr

/-- An artifact as reported by `MlflowClient.list_artifacts` (only the
fields the code reads). -/
structure Artifact where
  path : String
  is_dir : Bool
  deriving DecidableEq, Repr

/-- `mlflow.register_model` result (only the fields the code reads). -/
structure ModelDetails where
  name : String
  version : String
  deriving DecidableEq, Repr

/-- One entry of `MlflowClient.search_model_versions` (only the field the
code reads). -/
structure ModelVersion where
  version : String
  deriving DecidableEq, Repr

/-- A pickled model object is opaque to this module: `pickle.load`'s result
is only ever passed back to `mlflow.sklearn.log_model`. -/
abbrev SkModel := Nat

/-- Observable calls made to the external tracking client / filesystem. -/
inductive Event where
  | listArtifacts (run_id : String)
  | registerModel (uri : String) (name : String)
  | transitionStage (name : String) (version : String) (stage : String) (archive : Bool)
  | startRun
  | logModel (artifact_path : String) (registered_name : String)
  | searchVersions (filter : String)
  | pickleLoad (path : String)
  | openWrite (path : String)
  deriving DecidableEq, Repr

/-- Reading a file as JSON: the file may be absent (`open` raises
`FileNotFoundError`), present but unparsable (`json.load` raises
`JSONDecodeError`), or parse to a value. -/
inductive FileRead where
  | missing
  | badJson (msg : String)
  | ok (j : JVal)

abbrev FS := String → FileRead

/-- The environment: filesystem state plus the (deterministic) behaviour of
every external-client operation the module performs. An `.error` result
models the client call raising. -/
structure Env where
  fs : FS
  writeOk : String → Bool
  listArtifactsRes : String → Except PyError (List Artifact)
  registerModelRes : String → String → Except PyError ModelDetails
  transitionRes : String → String → String → Bool → Except PyError Unit
  pickleLoadRes : String → Except PyError SkModel
  startRunRes : Except PyError String
  logModelRes : SkModel → String → String → Except PyError Unit
  searchVersionsRes : String → Except PyError (List ModelVersion)

/-- Output of a Python function that does not write files. -/
structure Out (α : Type) where
  res : Except PyError α
  log : List LogEntry
  tr : List Event
  deriving Repr

/-- Output of a Python function that may write files: also carries the
filesystem after the call. -/
structure OutS (α : Type) where
  res : Except PyError α
  log : List LogEntry
  tr : List Event
  fs : FS

/-- Python-dict lookup for a JSON object: with duplicate keys, the later
binding wins (as in `json.load`). -/
def jLookup (key : String) : List (String × JVal) → Option JVal
  | [] => none
  | kv :: rest =>
    match jLookup key rest with
    | some v => some v
    | none => if kv.1 = key then some kv.2 else none

/-- Python subscription `j[k]`: `KeyError` when the key is absent,
`TypeError` when the value is not a dict. -/
def pyGetItem (j : JVal) (k : String) : Except PyError JVal :=
  match j with
  | .obj fields =>
    match jLookup k fields with
    | some v => .ok v
    | none => .error (.keyError k)
  | _ => .error (.typeError "string indices must be integers")

/-- `j[k]` used as a `str`. The source annotates `run_id` and `model_path`
as `str` and every producer writes strings; a non-string value would fail
at its first use inside the client, modelled here as a `TypeError` at
extraction (in either case a non-`(FileNotFoundError, ValueError)` error
propagates out of `main` without triggering the fallback). -/
def pyGetStrItem (j : JVal) (k : String) : Except PyError String :=
  match pyGetItem j k with
  | .ok (.str s) => .ok s
  | .ok _ => .error (.typeError ("expected str value at key " ++ k))
  | .error e => .error e

/-- Python `repr` of a list of strings, as interpolated into log messages. -/
def listStr : List String → String
  | [] => "[]"
  | s :: rest =>
    "['" ++ s ++ (rest.foldl (fun acc x => acc ++ "', '" ++ x) "") ++ "']"

/-- Decimal digits to a number; `none` on a non-digit. -/
def parseDigits (cs : List Char) : Option Nat :=
  cs.foldl
    (fun acc c =>
      match acc with
      | none => none
      | some n => if c.isDigit then some (n * 10 + (c.toNat - Char.toNat '0')) else none)
    (some 0)

/-- Python `int(s)` for base 10 on optional-sign decimal literals (the
form model-version strings take; any other string raises `ValueError`,
as `int()` does on a bad literal). -/
def pyIntOfStr (s : String) : Except PyError Int :=
  let bad : Except PyError Int :=
    .error (.valueError ("invalid literal for int() with base 10: '" ++ s ++ "'"))
  match s.data with
  | [] => bad
  | '-' :: rest =>
    match rest, parseDigits rest with
    | _ :: _, some n => .ok (-(n : Int))
    | _, _ => bad
  | cs =>
    match parseDigits cs with
    | some n => .ok (n : Int)
    | none => bad

/-- The list comprehension `[int(mv.version) for mv in model_versions]`:
evaluated left to right, the first bad literal raises. -/
def intsOfVersions : List ModelVersion → Except PyError (List Int)
  | [] => .ok []
  | mv :: rest =>
    match pyIntOfStr mv.version with
    | .error e => .error e
    | .ok i =>
      match intsOfVersions rest with
      | .error e => .error e
      | .ok rest' => .ok (i :: rest')

/-- Python `max` on a nonempty list of ints (`max(i :: is)`); the `[]` case
is unreachable in the code below (guarded by the emptiness check). -/
def pyMaxD : List Int → Int
  | [] => 0
  | i :: rest => rest.foldl max i

/-- `load_model_info(file_path)`: read and parse a JSON file; on
`FileNotFoundError` / `JSONDecodeError` log the error and re-raise. (The
source's third handler, `except Exception`, has no reachable trigger in
this filesystem model.) -/
def load_model_info (env : Env) (file_path : String) : Out JVal :=
  match env.fs file_path with
  | .ok j =>
    ⟨.ok j, [⟨.info, "Model info loaded from " ++ file_path⟩], []⟩
  | .missing =>
    ⟨.error (.fileNotFound file_path),
     [⟨.error, "File not found: " ++ file_path⟩], []⟩
  | .badJson m =>
    ⟨.error (.jsonDecode m),
     [⟨.error, "Failed to parse JSON file: " ++ m⟩], []⟩

/-- `verify_run_artifacts(run_id)`: list the run's artifacts and return
their paths; any exception is caught, logged, and answered with `[]`. -/
def verify_run_artifacts (env : Env) (run_id : String) : Out (List String) :=
  match env.listArtifactsRes run_id with
  | .ok artifacts =>
    let artifact_paths := artifacts.map Artifact.path
    ⟨.ok artifact_paths,
     [⟨.info, "Found artifacts in run " ++ run_id ++ ": " ++ listStr artifact_paths⟩],
     [.listArtifacts run_id]⟩
  | .error e =>
    ⟨.ok [],
     [⟨.error, "Error listing artifacts: " ++ pyErrStr e⟩],
     [.listArtifacts run_id]⟩

/-- The `except Exception` log line of `register_model_from_run`. -/
def fromRunErrLog (e : PyError) : LogEntry :=
  ⟨.error, "Error during model registration: " ++ pyErrStr e⟩

/-- `register_model_from_run(run_id, model_path, model_name)`: check the
model path is among the run's artifacts (else `ValueError`), register
`runs:/run_id/model_path`, transition the new version to Staging, return
the version; any exception is logged and re-raised. -/
def register_model_from_run (env : Env) (run_id model_path model_name : String) :
    Out String :=
  let v := verify_run_artifacts env run_id
  match v.res with
  | .error e =>
    ⟨.error e, v.log ++ [fromRunErrLog e], v.tr⟩
  | .ok artifacts =>
    if model_path ∈ artifacts then
      let model_uri := "runs:/" ++ run_id ++ "/" ++ model_path
      let log1 := v.log ++ [⟨.info, "Model URI: " ++ model_uri⟩]
      match env.registerModelRes model_uri model_name with
      | .error e =>
        ⟨.error e, log1 ++ [fromRunErrLog e],
         v.tr ++ [.registerModel model_uri model_name]⟩
      | .ok details =>
        let log2 := log1 ++
          [⟨.info, "Model registered with name: " ++ details.name ++
            ", version: " ++ details.version⟩]
        let tr2 := v.tr ++ [.registerModel model_uri model_name,
          .transitionStage model_name details.version "Staging" false]
        match env.transitionRes model_name details.version "Staging" false with
        | .error e =>
          ⟨.error e, log2 ++ [fromRunErrLog e], tr2⟩
        | .ok _ =>
          ⟨.ok details.version,
           log2 ++ [⟨.info, "Model version " ++ details.version ++
             " transitioned to Staging"⟩],
           tr2⟩
    else
      let e := PyError.valueError ("Model artifact '" ++ model_path ++
        "' not found in run. Available artifacts: " ++ listStr artifacts)
      ⟨.error e, v.log ++ [fromRunErrLog e], v.tr⟩

/-- The `except Exception` log line of `register_model_directly`. -/
def directErrLog (e : PyError) : LogEntry :=
  ⟨.error, "Error during direct model registration: " ++ pyErrStr e⟩

/-- `register_model_directly(model_file_path, model_name)`: unpickle the
model, log it inside a fresh run under `registered_model_name`, take the
highest numeric version reported for the name (`ValueError` when none),
transition it to Staging and return `str(latest_version)`; any exception
is logged and re-raised. -/
def register_model_directly (env : Env) (model_file_path model_name : String) :
    Out String :=
  match env.pickleLoadRes model_file_path with
  | .error e =>
    ⟨.error e, [directErrLog e], [.pickleLoad model_file_path]⟩
  | .ok model =>
    let log0 : List LogEntry := [⟨.info, "Model loaded from " ++ model_file_path⟩]
    match env.startRunRes with
    | .error e =>
      ⟨.error e, log0 ++ [directErrLog e], [.pickleLoad model_file_path, .startRun]⟩
    | .ok _run_id =>
      match env.logModelRes model "model" model_name with
      | .error e =>
        ⟨.error e, log0 ++ [directErrLog e],
         [.pickleLoad model_file_path, .startRun, .logModel "model" model_name]⟩
      | .ok _ =>
        let log1 := log0 ++ [⟨.info, "Model logged and registered to MLflow"⟩]
        let versionsFilter := "name='" ++ model_name ++ "'"
        let tr1 : List Event := [.pickleLoad model_file_path, .startRun,
          .logModel "model" model_name, .searchVersions versionsFilter]
        match env.searchVersionsRes versionsFilter with
        | .error e =>
          ⟨.error e, log1 ++ [directErrLog e], tr1⟩
        | .ok model_versions =>
          match model_versions with
          | [] =>
            let e := PyError.valueError ("No versions found for model '" ++
              model_name ++ "'")
            ⟨.error e, log1 ++ [directErrLog e], tr1⟩
          | mv0 :: mvrest =>
            match intsOfVersions (mv0 :: mvrest) with
            | .error e =>
              ⟨.error e, log1 ++ [directErrLog e], tr1⟩
            | .ok ints =>
              let latest := pyMaxD ints
              let log2 := log1 ++ [⟨.info, "Model registered with name: " ++
                model_name ++ ", version: " ++ toString latest⟩]
              let tr2 := tr1 ++
                [.transitionStage model_name (toString latest) "Staging" false]
              match env.transitionRes model_name (toString latest) "Staging" false with
              | .error e =>
                ⟨.error e, log2 ++ [directErrLog e], tr2⟩
              | .ok _ =>
                ⟨.ok (toString latest),
                 log2 ++ [⟨.info, "Model version " ++ toString latest ++
                   " transitioned to Staging"⟩],
                 tr2⟩

/-- The JSON object `save_registered_model_info` writes. -/
def registeredInfoJson (model_name version : String) : JVal :=
  .obj [("model_name", .str model_name), ("version", .str version),
        ("stage", .str "Staging")]

/-- `save_registered_model_info(model_name, version, file_path)`: write
`{'model_name': ..., 'version': ..., 'stage': 'Staging'}` to the file; on
failure to open for writing, log and re-raise. -/
def save_registered_model_info (env : Env) (model_name version file_path : String) :
    OutS Unit :=
  if env.writeOk file_path then
    ⟨.ok (),
     [⟨.info, "Registered model info saved to " ++ file_path⟩],
     [.openWrite file_path],
     fun p => if p = file_path then .ok (registeredInfoJson model_name version)
              else env.fs p⟩
  else
    let e := PyError.other ("Could not open " ++ file_path ++ " for writing")
    ⟨.error e,
     [⟨.error, "Error occurred while saving registered model info: " ++ pyErrStr e⟩],
     [.openWrite file_path],
     env.fs⟩

/-- The `except Exception` log line of `main`'s outer handler. -/
def outerFailLog (e : PyError) : LogEntry :=
  ⟨.error, "Failed to complete the model registration process: " ++ pyErrStr e⟩

/-- Tail of `main` after a registration succeeded with `version`: save the
registered model info; a failure there reaches only the outer handler. -/
def mainFinish (env : Env) (version : String)
    (logAcc : List LogEntry) (trAcc : List Event) : OutS Unit :=
  let s := save_registered_model_info env "sentiment_model" version
    "reports/registered_model_info.json"
  match s.res with
  | .ok _ => ⟨.ok (), logAcc ++ s.log, trAcc ++ s.tr, s.fs⟩
  | .error e => ⟨.error e, logAcc ++ s.log ++ [outerFailLog e], trAcc ++ s.tr, s.fs⟩

/-- The `except (FileNotFoundError, ValueError)` branch of `main`: warn,
then register directly from `./models/model.pkl`; a failure there reaches
only the outer handler. -/
def mainFallback (env : Env) (e : PyError)
    (logAcc : List LogEntry) (trAcc : List Event) : OutS Unit :=
  let logAcc' := logAcc ++
    [⟨.warning, "Could not register from existing run: " ++ pyErrStr e⟩,
     ⟨.info, "Attempting to register model directly from file..."⟩]
  let d := register_model_directly env "./models/model.pkl" "sentiment_model"
  match d.res with
  | .ok version => mainFinish env version (logAcc' ++ d.log) (trAcc ++ d.tr)
  | .error e2 =>
    ⟨.error e2, logAcc' ++ d.log ++ [outerFailLog e2], trAcc ++ d.tr, env.fs⟩

/-- An exception escaping `main`'s inner `try`: `except (FileNotFoundError,
ValueError)` triggers the fallback; any other exception reaches only the
outer `except Exception`, which logs and re-raises. -/
def mainInnerFail (env : Env) (e : PyError)
    (logAcc : List LogEntry) (trAcc : List Event) : OutS Unit :=
  if e.caughtByFileNotFoundOrValue then mainFallback env e logAcc trAcc
  else ⟨.error e, logAcc ++ [outerFailLog e], trAcc, env.fs⟩

/-- `main()`: load `reports/experiment_info.json`, read `run_id` and
`model_path`, register from the run; on `FileNotFoundError`/`ValueError`
fall back to direct registration; finally save the registered model info. -/
def mainRun (env : Env) : OutS Unit :=
  let lm := load_model_info env "reports/experiment_info.json"
  match lm.res with
  | .error e => mainInnerFail env e lm.log lm.tr
  | .ok model_info =>
    match pyGetStrItem model_info "run_id" with
    | .error e => mainInnerFail env e lm.log lm.tr
    | .ok run_id =>
      match pyGetStrItem model_info "model_path" with
      | .error e => mainInnerFail env e lm.log lm.tr
      | .ok model_path =>
        let logAcc := lm.log ++
          [⟨.info, "Retrieved run_id: " ++ run_id ++ ", model_path: " ++ model_path⟩]
        let r := register_model_from_run env run_id model_path "sentiment_model"
        match r.res with
        | .ok version => mainFinish env version (logAcc ++ r.log) (lm.tr ++ r.tr)
        | .error e => mainInnerFail env e (logAcc ++ r.log) (lm.tr ++ r.tr)

/-! ### Concrete environments used by closed witnesses and counterexamples -/

/-- A fully healthy environment: `reports/experiment_info.json` holds
`run_id = "r1"` and `model_path = "model"`, the run has a `"model"`
artifact, every client call succeeds, every file is writable. -/
def envOk : Env :=
  { fs := fun p =>
      if p = "reports/experiment_info.json" then
        .ok (JVal.obj [("run_id", .str "r1"), ("model_path", .str "model")])
      else .missing
    writeOk := fun _ => true
    listArtifactsRes := fun _ => .ok [⟨"model", false⟩]
    registerModelRes := fun _ n => .ok ⟨n, "5"⟩
    transitionRes := fun _ _ _ _ => .ok ()
    pickleLoadRes := fun _ => .ok 0
    startRunRes := .ok "run0"
    logModelRes := fun _ _ _ => .ok ()
    searchVersionsRes := fun _ => .ok [⟨"1"⟩, ⟨"3"⟩, ⟨"2"⟩] }

/-- Like `envOk`, but the experiment-info file carries an extra field and
the rest of the filesystem differs: used to witness that no other field
influences `main`. -/
def fsOkExtra : FS := fun p =>
  if p = "reports/experiment_info.json" then
    .ok (JVal.obj [("run_id", .str "r1"), ("extra", .num 7),
                   ("model_path", .str "model")])
  else .badJson "junk"

def envOkExtra : Env :=
  { envOk with fs := fsOkExtra }

/-- Like `envOk`, but `mlflow.register_model` raises a client-side error
that is neither a `FileNotFoundError` nor a `ValueError`. -/
def envClientFail : Env :=
  { envOk with registerModelRes := fun _ _ => .error (.other "INTERNAL ERROR") }

/-- Like `envOk`, but `reports/experiment_info.json` is absent and listing
artifacts raises. -/
def envNoInfo : Env :=
  { envOk with
    fs := fun _ => .missing
    listArtifactsRes := fun _ => .error (.other "run not found") }

/-! ### C3: verify_run_artifacts never raises -/

/-- C3: for every run_id, `verify_run_artifacts` returns (never raises)
exactly the artifact paths reported by the tracking client, in order, when
listing succeeds, and the empty list when listing raises. -/
theorem verify_run_artifacts_paths_or_empty (env : Env) (run_id : String) :
    (verify_run_artifacts env run_id).res =
      .ok (match env.listArtifactsRes run_id with
           | .ok artifacts => artifacts.map Artifact.path
           | .error _ => []) := by
  unfold verify_run_artifacts
  cases env.listArtifactsRes run_id <;> rfl

/-! ### C4: save_registered_model_info writes the three-key schema -/

/-- C4: for every model_name, version and writable file_path,
`save_registered_model_info` succeeds and writes to file_path a JSON
object with exactly the keys `model_name`, `version`, `stage`, holding the
given name, the given version, and the string `"Staging"`. -/
theorem save_registered_model_info_schema (env : Env)
    (model_name version file_path : String)
    (h : env.writeOk file_path = true) :
    (save_registered_model_info env model_name version file_path).res = .ok () ∧
    (save_registered_model_info env model_name version file_path).fs file_path =
      .ok (JVal.obj [("model_name", .str model_name),
                     ("version", .str version),
                     ("stage", .str "Staging")]) := by
  unfold save_registered_model_info
  rw [h]
  exact ⟨rfl, by simp [registeredInfoJson]⟩

/-- C4 witness: instantiated on `envOk` with concrete name, version and
path. -/
theorem save_registered_model_info_schema_witness :
    (save_registered_model_info envOk "sentiment_model" "3" "reports/registered_model_info.json").res = .ok () ∧
    (save_registered_model_info envOk "sentiment_model" "3" "reports/registered_model_info.json").fs
        "reports/registered_model_info.json" =
      .ok (JVal.obj [("model_name", .str "sentiment_model"),
                     ("version", .str "3"),
                     ("stage", .str "Staging")]) :=
  save_registered_model_info_schema envOk "sentiment_model" "3"
    "reports/registered_model_info.json" rfl

/-! ### C5: the registered-model-info schema round-trips -/

/-- C5: writing registered model info and loading the same file back
yields exactly `{'model_name': model_name, 'version': version,
'stage': 'Staging'}`. -/
theorem save_load_roundtrip (env : Env) (model_name version file_path : String)
    (h : env.writeOk file_path = true) :
    (load_model_info
        { env with fs := (save_registered_model_info env model_name version file_path).fs }
        file_path).res =
      .ok (JVal.obj [("model_name", .str model_name),
                     ("version", .str version),
                     ("stage", .str "Staging")]) := by
  unfold load_model_info save_registered_model_info
  rw [h]
  simp [registeredInfoJson]

/-- C5 witness: instantiated on `envOk` with concrete name, version and
path. -/
theorem save_load_roundtrip_witness :
    (load_model_info
        { envOk with fs := (save_registered_model_info envOk "sentiment_model" "3" "reports/registered_model_info.json").fs }
        "reports/registered_model_info.json").res =
      .ok (JVal.obj [("model_name", .str "sentiment_model"),
                     ("version", .str "3"),
                     ("stage", .str "Staging")]) :=
  save_load_roundtrip envOk "sentiment_model" "3"
    "reports/registered_model_info.json" rfl

/-! ### C2: every error is logged and re-raised -/

/-- Whether the log ends with an error-level record. -/
def LogsErrorLast : List LogEntry → Bool
  | [] => false
  | [en] => match en.level with | .error => true | _ => false
  | _ :: en :: rest => LogsErrorLast (en :: rest)

/-- One call to any of the four fallible functions of the module (the
result type is erased so that the calls can be quantified over
uniformly). -/
inductive RMCall where
  | load (file_path : String)
  | fromRun (run_id model_path model_name : String)
  | directly (model_file_path model_name : String)
  | save (model_name version file_path : String)

/-- Result (erased to `Unit`) and log of one `RMCall`. -/
def rmCallOut (env : Env) : RMCall → Except PyError Unit × List LogEntry
  | .load p =>
    ((load_model_info env p).res.map fun _ => (), (load_model_info env p).log)
  | .fromRun r mp mn =>
    ((register_model_from_run env r mp mn).res.map fun _ => (),
     (register_model_from_run env r mp mn).log)
  | .directly mf mn =>
    ((register_model_directly env mf mn).res.map fun _ => (),
     (register_model_directly env mf mn).log)
  | .save mn v fp =>
    ((save_registered_model_info env mn v fp).res,
     (save_registered_model_info env mn v fp).log)

/-- C2: whenever `load_model_info`, `register_model_from_run`,
`register_model_directly` or `save_registered_model_info` propagates an
error to its caller, its log ends with an error-level record: each
function logs the error and re-raises; none swallows it or returns a
value instead. -/
theorem fallible_calls_log_then_reraise (env : Env) (c : RMCall) (e : PyError)
    (h : (rmCallOut env c).1 = .error e) :
    LogsErrorLast (rmCallOut env c).2 = true := by
  revert h
  cases c with
  | load p =>
    simp only [rmCallOut, load_model_info]
    repeat' split
    all_goals intro h
    all_goals first | rfl | exact Except.noConfusion h
  | fromRun r mp mn =>
    simp only [rmCallOut, register_model_from_run, verify_run_artifacts]
    repeat' split
    all_goals intro h
    all_goals first | rfl | exact Except.noConfusion h
  | directly mf mn =>
    simp only [rmCallOut, register_model_directly]
    repeat' split
    all_goals intro h
    all_goals first | rfl | exact Except.noConfusion h
  | save mn v fp =>
    simp only [rmCallOut, save_registered_model_info]
    repeat' split
    all_goals intro h
    all_goals first | rfl | exact Except.noConfusion h

/-- C2 witness: on `envNoInfo`, loading the absent
`reports/experiment_info.json` raises `FileNotFoundError`, and the log
ends with an error record. -/
theorem fallible_calls_log_then_reraise_witness :
    (rmCallOut envNoInfo (.load "reports/experiment_info.json")).1 =
      .error (.fileNotFound "reports/experiment_info.json") ∧
    LogsErrorLast (rmCallOut envNoInfo (.load "reports/experiment_info.json")).2 = true :=
  ⟨rfl, fallible_calls_log_then_reraise envNoInfo
    (.load "reports/experiment_info.json")
    (.fileNotFound "reports/experiment_info.json") rfl⟩

/-! ### C7: every successful registration transitions the returned version
to Staging -/

/-- One call to either registration function. -/
inductive RegCall where
  | fromRun (run_id model_path model_name : String)
  | directly (model_file_path model_name : String)

def regCallOut (env : Env) : RegCall → Out String
  | .fromRun r mp mn => register_model_from_run env r mp mn
  | .directly mf mn => register_model_directly env mf mn

def regCallName : RegCall → String
  | .fromRun _ _ mn => mn
  | .directly _ mn => mn

/-- C7: whenever `register_model_from_run` or `register_model_directly`
returns a version `v`, the call transitioned exactly that version (as a
string) of its model name to stage `"Staging"` with
`archive_existing_versions = False` before returning. -/
theorem successful_registration_transitions_to_staging (env : Env)
    (c : RegCall) (v : String)
    (h : (regCallOut env c).res = .ok v) :
    Event.transitionStage (regCallName c) v "Staging" false ∈ (regCallOut env c).tr := by
  revert h
  cases c with
  | fromRun r mp mn =>
    simp only [regCallOut, regCallName, register_model_from_run, verify_run_artifacts]
    repeat' split
    all_goals intro h
    all_goals first
      | exact Except.noConfusion h
      | (injection h with h'; subst h'; simp)
  | directly mf mn =>
    simp only [regCallOut, regCallName, register_model_directly]
    repeat' split
    all_goals intro h
    all_goals first
      | exact Except.noConfusion h
      | (injection h with h'; subst h'; simp)

/-- C7 witness: on `envOk`, registering from run `"r1"` returns version
`"5"` and the trace shows the transition of version `"5"` to Staging. -/
theorem successful_registration_transitions_to_staging_witness :
    Event.transitionStage "sentiment_model" "5" "Staging" false ∈
      (regCallOut envOk (.fromRun "r1" "model" "sentiment_model")).tr :=
  successful_registration_transitions_to_staging envOk
    (.fromRun "r1" "model" "sentiment_model") "5" rfl

/-! ### C8: a model path missing from the artifacts aborts registration -/

theorem verify_run_artifacts_tr (env : Env) (run_id : String) :
    (verify_run_artifacts env run_id).tr = [Event.listArtifacts run_id] := by
  unfold verify_run_artifacts
  cases env.listArtifactsRes run_id <;> rfl

/-- C8: if `model_path` is not among the paths `verify_run_artifacts`
returns (in particular when listing failed and it returned `[]`),
`register_model_from_run` raises `ValueError`, and its client trace is
only the artifact listing: no model registration and no stage transition
happened. -/
theorem register_from_run_missing_artifact (env : Env)
    (run_id model_path model_name : String) (paths : List String)
    (hv : (verify_run_artifacts env run_id).res = .ok paths)
    (hnm : model_path ∉ paths) :
    (∃ m, (register_model_from_run env run_id model_path model_name).res =
      .error (.valueError m)) ∧
    (register_model_from_run env run_id model_path model_name).tr =
      [Event.listArtifacts run_id] := by
  constructor
  · refine ⟨"Model artifact '" ++ model_path ++
      "' not found in run. Available artifacts: " ++ listStr paths, ?_⟩
    simp [register_model_from_run, hv, hnm]
  · simp [register_model_from_run, hv, hnm, verify_run_artifacts_tr]

/-- C8 witness: on `envNoInfo` artifact listing raises, so
`verify_run_artifacts` answers `[]`, `"model"` is not in it, and
registration aborts with `ValueError` after only the listing call. -/
theorem register_from_run_missing_artifact_witness :
    (∃ m, (register_model_from_run envNoInfo "r1" "model" "sentiment_model").res =
      .error (.valueError m)) ∧
    (register_model_from_run envNoInfo "r1" "model" "sentiment_model").tr =
      [Event.listArtifacts "r1"] :=
  register_from_run_missing_artifact envNoInfo "r1" "model" "sentiment_model"
    [] rfl (by simp)

/-! ### C9: register_model_directly returns the highest numeric version -/

theorem foldl_max_self (l : List Int) (a : Int) : a ≤ l.foldl max a := by
  induction l generalizing a with
  | nil => exact le_refl a
  | cons b t ih => exact le_trans (le_max_left a b) (ih (max a b))

theorem foldl_max_mem_le (l : List Int) (a x : Int) (hx : x ∈ l) :
    x ≤ l.foldl max a := by
  induction l generalizing a with
  | nil => cases hx
  | cons b t ih =>
    rcases List.mem_cons.mp hx with h | h
    · subst h
      exact le_trans (le_max_right a x) (foldl_max_self t (max a x))
    · exact ih (max a b) h

theorem foldl_max_choice (l : List Int) (a : Int) :
    l.foldl max a = a ∨ l.foldl max a ∈ l := by
  induction l generalizing a with
  | nil => exact Or.inl rfl
  | cons b t ih =>
    rcases ih (max a b) with h | h
    · rcases max_choice a b with hm | hm
      · exact Or.inl (by rw [List.foldl_cons, h, hm])
      · refine Or.inr ?_
        rw [List.foldl_cons, h, hm]
        exact List.mem_cons_self b t
    · exact Or.inr (List.mem_cons_of_mem b h)

/-- `pyMaxD` of a nonempty list is one of its elements. -/
theorem pyMaxD_mem (l : List Int) (hne : l ≠ []) : pyMaxD l ∈ l := by
  cases l with
  | nil => exact absurd rfl hne
  | cons i t =>
    simp only [pyMaxD]
    rcases foldl_max_choice t i with h | h
    · rw [h]; exact List.mem_cons_self i t
    · exact List.mem_cons_of_mem i h

/-- Every element of a nonempty list is at most its `pyMaxD`. -/
theorem le_pyMaxD (l : List Int) (x : Int) (hx : x ∈ l) : x ≤ pyMaxD l := by
  cases l with
  | nil => cases hx
  | cons i t =>
    simp only [pyMaxD]
    rcases List.mem_cons.mp hx with h | h
    · rw [h]; exact foldl_max_self t i
    · exact foldl_max_mem_le t i x h

theorem intsOfVersions_ne_nil (mv : ModelVersion) (rest : List ModelVersion)
    (ints : List Int) (h : intsOfVersions (mv :: rest) = .ok ints) :
    ints ≠ [] := by
  simp only [intsOfVersions] at h
  split at h
  · exact Except.noConfusion h
  · split at h
    · exact Except.noConfusion h
    · injection h with h'
      subst h'
      exact List.cons_ne_nil _ _

/-- C9: when unpickling, the run start and the model logging succeed,
`register_model_directly` raises `ValueError` if the client reports no
versions for the model name; and when versions are reported, all parse,
and the transition succeeds, it returns the string form of the greatest
numeric version among them (an element of the parsed versions that bounds
them all). -/
theorem register_directly_returns_max_version (env : Env)
    (model_file_path model_name : String) (model : SkModel) (rid : String)
    (hp : env.pickleLoadRes model_file_path = .ok model)
    (hs : env.startRunRes = .ok rid)
    (hl : env.logModelRes model "model" model_name = .ok ()) :
    (env.searchVersionsRes ("name='" ++ model_name ++ "'") = .ok [] →
      (register_model_directly env model_file_path model_name).res =
        .error (.valueError ("No versions found for model '" ++ model_name ++ "'"))) ∧
    (∀ mvs ints, env.searchVersionsRes ("name='" ++ model_name ++ "'") = .ok mvs →
      mvs ≠ [] → intsOfVersions mvs = .ok ints →
      env.transitionRes model_name (toString (pyMaxD ints)) "Staging" false = .ok () →
      (register_model_directly env model_file_path model_name).res =
        .ok (toString (pyMaxD ints)) ∧
      pyMaxD ints ∈ ints ∧ ∀ x ∈ ints, x ≤ pyMaxD ints) := by
  constructor
  · intro hsv
    simp [register_model_directly, hp, hs, hl, hsv]
  · intro mvs ints hsv hne hiv htr
    cases mvs with
    | nil => exact absurd rfl hne
    | cons mv0 t =>
      have hnn : ints ≠ [] := intsOfVersions_ne_nil mv0 t ints hiv
      refine ⟨?_, pyMaxD_mem ints hnn, fun x hx => le_pyMaxD ints x hx⟩
      simp [register_model_directly, hp, hs, hl, hsv, hiv, htr]

/-- C9 witness: on `envOk` the client reports versions `"1"`, `"3"`,
`"2"`; direct registration returns `"3"`, the greatest. -/
theorem register_directly_returns_max_version_witness :
    (register_model_directly envOk "./models/model.pkl" "sentiment_model").res =
      .ok (toString (pyMaxD [1, 3, 2])) ∧
    pyMaxD [1, 3, 2] ∈ ([1, 3, 2] : List Int) ∧
    ∀ x ∈ ([1, 3, 2] : List Int), x ≤ pyMaxD [1, 3, 2] :=
  (register_directly_returns_max_version envOk "./models/model.pkl"
    "sentiment_model" 0 "run0" rfl rfl rfl).2
    [⟨"1"⟩, ⟨"3"⟩, ⟨"2"⟩] [1, 3, 2] rfl (by simp) rfl rfl

/-! ### C1: when does main fall back to direct registration? -/

theorem pickle_in_directly_tr (env : Env) (mf mn : String) :
    Event.pickleLoad mf ∈ (register_model_directly env mf mn).tr := by
  unfold register_model_directly
  repeat' (first | split | simp only [])
  all_goals simp

theorem mainFinish_tr (env : Env) (version : String)
    (logAcc : List LogEntry) (trAcc : List Event) :
    (mainFinish env version logAcc trAcc).tr =
      trAcc ++ [Event.openWrite "reports/registered_model_info.json"] := by
  unfold mainFinish save_registered_model_info
  repeat' split
  all_goals rfl

theorem pickle_in_mainFallback (env : Env) (e : PyError)
    (logAcc : List LogEntry) (trAcc : List Event) :
    Event.pickleLoad "./models/model.pkl" ∈ (mainFallback env e logAcc trAcc).tr := by
  have hd := pickle_in_directly_tr env "./models/model.pkl" "sentiment_model"
  simp only [mainFallback]
  split
  · rw [mainFinish_tr]
    simp only [List.mem_append]
    exact Or.inl (Or.inr hd)
  · simp only [List.mem_append]
    exact Or.inr hd

theorem pickle_in_mainInnerFail (env : Env) (e : PyError)
    (logAcc : List LogEntry) (trAcc : List Event)
    (hc : e.caughtByFileNotFoundOrValue = true) :
    Event.pickleLoad "./models/model.pkl" ∈ (mainInnerFail env e logAcc trAcc).tr := by
  unfold mainInnerFail
  rw [if_pos hc]
  exact pickle_in_mainFallback env e logAcc trAcc

/-- C1 counterexample: in `envClientFail` the experiment info loads fine
and the artifact is present, but `mlflow.register_model` raises a
client-side error (neither `FileNotFoundError` nor `ValueError`), so
`register_model_from_run` fails — yet `main` does not fall back to
`register_model_directly('./models/model.pkl')`: the error propagates and
no pickle load ever happens. -/
theorem main_no_fallback_on_client_error :
    (register_model_from_run envClientFail "r1" "model" "sentiment_model").res =
      .error (.other "INTERNAL ERROR") ∧
    (mainRun envClientFail).res = .error (.other "INTERNAL ERROR") ∧
    Event.pickleLoad "./models/model.pkl" ∉ (mainRun envClientFail).tr := by
  refine ⟨rfl, rfl, ?_⟩
  decide

/-- C1 (amended): `main` falls back to registering directly from
`./models/model.pkl` exactly for the failures its inner handler catches:
whenever loading `reports/experiment_info.json` fails, or
`register_model_from_run` fails, with a `FileNotFoundError` or a
`ValueError` (including `json.JSONDecodeError`), the fallback runs —
other exceptions propagate without it. -/
theorem main_falls_back_on_caught_failures (env : Env) (e : PyError)
    (hc : e.caughtByFileNotFoundOrValue = true)
    (h : (load_model_info env "reports/experiment_info.json").res = .error e
      ∨ ∃ j run_id model_path,
          (load_model_info env "reports/experiment_info.json").res = .ok j ∧
          pyGetStrItem j "run_id" = .ok run_id ∧
          pyGetStrItem j "model_path" = .ok model_path ∧
          (register_model_from_run env run_id model_path "sentiment_model").res =
            .error e) :
    Event.pickleLoad "./models/model.pkl" ∈ (mainRun env).tr := by
  rcases h with hl | ⟨j, run_id, model_path, hj, hr, hp, hreg⟩
  · simp only [mainRun, hl]
    exact pickle_in_mainInnerFail env e _ _ hc
  · simp only [mainRun, hj, hr, hp, hreg]
    exact pickle_in_mainInnerFail env e _ _ hc

/-- C1 witness: with `reports/experiment_info.json` absent (a
`FileNotFoundError`), `main`'s trace shows the fallback's pickle load. -/
theorem main_falls_back_on_caught_failures_witness :
    Event.pickleLoad "./models/model.pkl" ∈ (mainRun envNoInfo).tr :=
  main_falls_back_on_caught_failures envNoInfo
    (.fileNotFound "reports/experiment_info.json") rfl (Or.inl rfl)

/-! ### C6: main consumes exactly the run_id and model_path fields -/

/-- Two environments whose external-client behaviour and write
permissions agree (their filesystems may differ). -/
def clientEq (e₁ e₂ : Env) : Prop :=
  e₁.writeOk = e₂.writeOk ∧
  e₁.listArtifactsRes = e₂.listArtifactsRes ∧
  e₁.registerModelRes = e₂.registerModelRes ∧
  e₁.transitionRes = e₂.transitionRes ∧
  e₁.pickleLoadRes = e₂.pickleLoadRes ∧
  e₁.startRunRes = e₂.startRunRes ∧
  e₁.logModelRes = e₂.logModelRes ∧
  e₁.searchVersionsRes = e₂.searchVersionsRes

theorem fromRun_clientEq (e₁ e₂ : Env) (h : clientEq e₁ e₂)
    (run_id model_path model_name : String) :
    register_model_from_run e₁ run_id model_path model_name =
      register_model_from_run e₂ run_id model_path model_name := by
  obtain ⟨hw, hla, hrm, htr, hpk, hsr, hlm, hsv⟩ := h
  unfold register_model_from_run verify_run_artifacts
  simp only [hla, hrm, htr]

theorem directly_clientEq (e₁ e₂ : Env) (h : clientEq e₁ e₂)
    (model_file_path model_name : String) :
    register_model_directly e₁ model_file_path model_name =
      register_model_directly e₂ model_file_path model_name := by
  obtain ⟨hw, hla, hrm, htr, hpk, hsr, hlm, hsv⟩ := h
  unfold register_model_directly
  simp only [hpk, hsr, hlm, hsv, htr]

theorem save_clientEq (e₁ e₂ : Env) (h : clientEq e₁ e₂)
    (model_name version file_path : String) :
    (save_registered_model_info e₁ model_name version file_path).res =
      (save_registered_model_info e₂ model_name version file_path).res ∧
    (save_registered_model_info e₁ model_name version file_path).log =
      (save_registered_model_info e₂ model_name version file_path).log ∧
    (save_registered_model_info e₁ model_name version file_path).tr =
      (save_registered_model_info e₂ model_name version file_path).tr := by
  obtain ⟨hw, hla, hrm, htr, hpk, hsr, hlm, hsv⟩ := h
  refine ⟨?_, ?_, ?_⟩ <;>
    (unfold save_registered_model_info; simp only [hw]; split <;> rfl)

theorem mainFinish_clientEq (e₁ e₂ : Env) (h : clientEq e₁ e₂) (version : String)
    (logAcc : List LogEntry) (trAcc : List Event) :
    (mainFinish e₁ version logAcc trAcc).res = (mainFinish e₂ version logAcc trAcc).res ∧
    (mainFinish e₁ version logAcc trAcc).log = (mainFinish e₂ version logAcc trAcc).log ∧
    (mainFinish e₁ version logAcc trAcc).tr = (mainFinish e₂ version logAcc trAcc).tr := by
  obtain ⟨hres, hlog, htr⟩ :=
    save_clientEq e₁ e₂ h "sentiment_model" version "reports/registered_model_info.json"
  refine ⟨?_, ?_, ?_⟩ <;>
    (simp only [mainFinish, hres, hlog, htr]; split <;> rfl)

theorem mainFallback_clientEq (e₁ e₂ : Env) (h : clientEq e₁ e₂) (e : PyError)
    (logAcc : List LogEntry) (trAcc : List Event) :
    (mainFallback e₁ e logAcc trAcc).res = (mainFallback e₂ e logAcc trAcc).res ∧
    (mainFallback e₁ e logAcc trAcc).log = (mainFallback e₂ e logAcc trAcc).log ∧
    (mainFallback e₁ e logAcc trAcc).tr = (mainFallback e₂ e logAcc trAcc).tr := by
  have hd := directly_clientEq e₁ e₂ h "./models/model.pkl" "sentiment_model"
  refine ⟨?_, ?_, ?_⟩
  · simp only [mainFallback, hd]
    split
    · exact (mainFinish_clientEq e₁ e₂ h _ _ _).1
    · rfl
  · simp only [mainFallback, hd]
    split
    · exact (mainFinish_clientEq e₁ e₂ h _ _ _).2.1
    · rfl
  · simp only [mainFallback, hd]
    split
    · exact (mainFinish_clientEq e₁ e₂ h _ _ _).2.2
    · rfl

theorem mainInnerFail_clientEq (e₁ e₂ : Env) (h : clientEq e₁ e₂) (e : PyError)
    (logAcc : List LogEntry) (trAcc : List Event) :
    (mainInnerFail e₁ e logAcc trAcc).res = (mainInnerFail e₂ e logAcc trAcc).res ∧
    (mainInnerFail e₁ e logAcc trAcc).log = (mainInnerFail e₂ e logAcc trAcc).log ∧
    (mainInnerFail e₁ e logAcc trAcc).tr = (mainInnerFail e₂ e logAcc trAcc).tr := by
  refine ⟨?_, ?_, ?_⟩
  · simp only [mainInnerFail]
    split
    · exact (mainFallback_clientEq e₁ e₂ h e _ _).1
    · rfl
  · simp only [mainInnerFail]
    split
    · exact (mainFallback_clientEq e₁ e₂ h e _ _).2.1
    · rfl
  · simp only [mainInnerFail]
    split
    · exact (mainFallback_clientEq e₁ e₂ h e _ _).2.2
    · rfl

theorem mainFallback_tr_ext (env : Env) (e : PyError)
    (logAcc : List LogEntry) (trAcc : List Event) :
    ∃ rest, (mainFallback env e logAcc trAcc).tr = trAcc ++ rest := by
  simp only [mainFallback]
  split
  · refine ⟨(register_model_directly env "./models/model.pkl" "sentiment_model").tr ++
      [Event.openWrite "reports/registered_model_info.json"], ?_⟩
    rw [mainFinish_tr]
    simp
  · exact ⟨(register_model_directly env "./models/model.pkl" "sentiment_model").tr, rfl⟩

theorem mainInnerFail_tr_ext (env : Env) (e : PyError)
    (logAcc : List LogEntry) (trAcc : List Event) :
    ∃ rest, (mainInnerFail env e logAcc trAcc).tr = trAcc ++ rest := by
  simp only [mainInnerFail]
  split
  · exact mainFallback_tr_ext env e logAcc trAcc
  · exact ⟨[], by simp⟩

/-- C6: `main` consumes `reports/experiment_info.json` through exactly the
two string fields `run_id` and `model_path`: (a) two runs over
environments with identical client behaviour whose experiment-info files
agree on those two fields (but may otherwise differ arbitrarily, and whose
filesystems may differ elsewhere) produce the same result, the same log
and the same client trace; (b) `main` passes the two extracted strings to
`register_model_from_run`, whose client trace opens `main`'s. -/
theorem main_reads_only_run_id_and_model_path (env₁ env₂ : Env)
    (j₁ j₂ : JVal) (run_id model_path : String)
    (hfs1 : env₁.fs "reports/experiment_info.json" = .ok j₁)
    (hfs2 : env₂.fs "reports/experiment_info.json" = .ok j₂)
    (hr1 : pyGetStrItem j₁ "run_id" = .ok run_id)
    (hr2 : pyGetStrItem j₂ "run_id" = .ok run_id)
    (hp1 : pyGetStrItem j₁ "model_path" = .ok model_path)
    (hp2 : pyGetStrItem j₂ "model_path" = .ok model_path)
    (hce : clientEq env₁ env₂) :
    ((mainRun env₁).res = (mainRun env₂).res ∧
     (mainRun env₁).log = (mainRun env₂).log ∧
     (mainRun env₁).tr = (mainRun env₂).tr) ∧
    ∃ rest, (mainRun env₁).tr =
      (register_model_from_run env₁ run_id model_path "sentiment_model").tr ++ rest := by
  have hfr := fromRun_clientEq env₁ env₂ hce run_id model_path "sentiment_model"
  constructor
  · refine ⟨?_, ?_, ?_⟩
    · simp only [mainRun, load_model_info, hfs1, hfs2, hr1, hr2, hp1, hp2, hfr]
      split
      · exact (mainFinish_clientEq env₁ env₂ hce _ _ _).1
      · exact (mainInnerFail_clientEq env₁ env₂ hce _ _ _).1
    · simp only [mainRun, load_model_info, hfs1, hfs2, hr1, hr2, hp1, hp2, hfr]
      split
      · exact (mainFinish_clientEq env₁ env₂ hce _ _ _).2.1
      · exact (mainInnerFail_clientEq env₁ env₂ hce _ _ _).2.1
    · simp only [mainRun, load_model_info, hfs1, hfs2, hr1, hr2, hp1, hp2, hfr]
      split
      · exact (mainFinish_clientEq env₁ env₂ hce _ _ _).2.2
      · exact (mainInnerFail_clientEq env₁ env₂ hce _ _ _).2.2
  · simp only [mainRun, load_model_info, hfs1, hr1, hp1]
    split
    · refine ⟨[Event.openWrite "reports/registered_model_info.json"], ?_⟩
      rw [mainFinish_tr]
      simp
    · obtain ⟨rest, hrest⟩ := mainInnerFail_tr_ext env₁ _ _
        ([] ++ (register_model_from_run env₁ run_id model_path "sentiment_model").tr)
      refine ⟨rest, ?_⟩
      rw [hrest]
      simp

/-- C6 witness: `envOk` and `envOkExtra` differ in the extra field of the
experiment-info file and in the rest of the filesystem, yet `main` behaves
identically on both, and its trace extends that of
`register_model_from_run "r1" "model"`. -/
theorem main_reads_only_run_id_and_model_path_witness :
    ((mainRun envOk).res = (mainRun envOkExtra).res ∧
     (mainRun envOk).log = (mainRun envOkExtra).log ∧
     (mainRun envOk).tr = (mainRun envOkExtra).tr) ∧
    ∃ rest, (mainRun envOk).tr =
      (register_model_from_run envOk "r1" "model" "sentiment_model").tr ++ rest :=
  main_reads_only_run_id_and_model_path envOk envOkExtra
    (JVal.obj [("run_id", .str "r1"), ("model_path", .str "model")])
    (JVal.obj [("run_id", .str "r1"), ("extra", .num 7), ("model_path", .str "model")])
    "r1" "model" rfl rfl rfl rfl rfl rfl
    ⟨rfl, rfl, rfl, rfl, rfl, rfl, rfl, rfl⟩

end RegisterModel
